import Mathlib

/-!
Verification development for the tellama chat-relay agent.

The embedding models the two core source files:
  * `src/tellama/database_manager.py` — the SQLite-backed persistence store
    (tables `tellama_settings`, `conversation_history`, `allowed_groups`,
    `allowed_users`, `chat_instructions` and the operations on them);
  * `src/tellama/tellama.py` — the `handle_message` pipeline (validation,
    self-filter, authorization, context assembly, inbound persistence,
    mention gate, prompt composition, inference call, response
    post-processing, relay, outbound persistence, catch-all error handler).

Python string primitives (`str.strip`, `str.lower`, `str.startswith`,
`str.split`, substring membership `in`) are embedded as structurally
recursive functions over `List Char` so that every definition evaluates
inside the kernel on concrete inputs.

SQLite tables are embedded as Lean lists holding one element per row, kept
in rowid (insertion) order, which is the order an unordered full-table scan
— and hence `cursor.fetchone()` on an `ORDER BY`-free query — yields rows.
Auto-increment ids are modelled by per-table counters in the `DB` record.
-/

namespace Tellama

/-! ## Python string primitives -/

/-- Whitespace characters stripped by Python `str.strip()` (the ASCII ones;
the pipeline only ever strips ASCII whitespace). -/
def pySpaceChars : List Char := [' ', '\t', '\n', '\r', '\x0b', '\x0c']

/-- Whether a character is Python whitespace. -/
def isPySpace (c : Char) : Bool := pySpaceChars.contains c

/-- Strip leading and trailing whitespace from a character list. -/
def pyStripL (l : List Char) : List Char :=
  ((l.dropWhile isPySpace).reverse.dropWhile isPySpace).reverse

/-- Python `s.strip()`. -/
def pyStrip (s : String) : String := ⟨pyStripL s.data⟩

/-- Python `s.lower()` (ASCII case folding, which is all the pipeline
compares). -/
def pyLower (s : String) : String := ⟨s.data.map Char.toLower⟩

/-- Python `s.startswith(pre)`. -/
def pyStartsWith (s pre : String) : Bool := pre.data.isPrefixOf s.data

/-- Whether a (non-empty) separator occurs somewhere in a character list. -/
def containsL (sep : List Char) : List Char → Bool
  | [] => false
  | c :: rest => sep.isPrefixOf (c :: rest) || containsL sep rest

/-- Python `sep in s` for a non-empty separator `sep`. -/
def pyContains (s sep : String) : Bool := containsL sep.data s.data

/-- Python `s.split(sep)` for a non-empty separator: greedy left-to-right
scan for non-overlapping occurrences. The fuel argument only forces
structural termination; it is always at least the length of the scanned
list plus one, and every recursive call consumes at least one character, so
the fuel is never exhausted. -/
def pySplitFuel (sep : List Char) : Nat → List Char → List (List Char)
  | 0, s => [s]
  | Nat.succ fuel, s =>
    match s with
    | [] => [[]]
    | c :: rest =>
      if sep.isPrefixOf (c :: rest) then
        [] :: pySplitFuel sep fuel (List.drop sep.length (c :: rest))
      else
        match pySplitFuel sep fuel rest with
        | [] => [[c]]
        | h :: t => (c :: h) :: t

/-- Python `s.split(sep)` for a non-empty separator `sep`. -/
def pySplit (s sep : String) : List String :=
  (pySplitFuel sep.data (s.data.length + 1) s.data).map (fun l => ⟨l⟩)

/-! ## Data model (`database_manager.py`) -/

/-- A row of the `tellama_settings` table. Its schema
(`_create_tables`, lines 46–54) declares `id INTEGER PRIMARY KEY
AUTOINCREMENT, setting TEXT, value TEXT` — note that no UNIQUE constraint
is declared on `setting`. -/
structure SettingRow where
  id : Nat
  setting : String
  value : String
deriving DecidableEq

/-- A row of the `conversation_history` table (`_create_tables`,
lines 57–69). -/
structure HistoryRow where
  id : Nat
  timestamp : String
  chat_id : Int
  chat_name : String
  user_id : Int
  full_name : String
  message : String
deriving DecidableEq

/-- A row of the `allowed_groups` table (`_create_tables`, lines 72–80). -/
structure GroupRow where
  id : Nat
  chat_id : Int
  chat_name : String
deriving DecidableEq

/-- A row of the `allowed_users` table (`_create_tables`, lines 83–91). -/
structure UserRow where
  id : Nat
  user_id : Int
  user_name : String
deriving DecidableEq

/-- A row of the `chat_instructions` table (`_create_tables`,
lines 94–102); `chat_id` is nullable and `none` models SQL NULL. -/
structure InstrRow where
  id : Nat
  chat_id : Option Int
  instructions : String
deriving DecidableEq

/-- The whole SQLite database. Each list holds the rows of one table in
rowid order; `nextSettingId` / `nextHistoryId` model the AUTOINCREMENT
counters of the two tables the pipeline writes to. -/
structure DB where
  settings : List SettingRow
  history : List HistoryRow
  allowed_groups : List GroupRow
  allowed_users : List UserRow
  chat_instructions : List InstrRow
  nextSettingId : Nat
  nextHistoryId : Nat
deriving DecidableEq

/-- The hard-coded `DEFAULT_INSTRUCTIONS` constant
(`database_manager.py`, lines 11–21). -/
def DEFAULT_INSTRUCTIONS : String := "<instructions>
- Your name is Tellama.
- You are an AI chatbot built by @K4YT3X for Telegram group chats.
- You should not engage in any harmful, illegal, or unethical conversations.
- You should be polite, respectful, and helpful to all users.
- You should obey laws, morals, and ethics.
- Contents between `<instructions></instructions>` are instructions for you to follow.
- Contents after `<instructions></instructions>` are messages from users in the chat.
- User messages are in the format of `<nickname>: <message>`.
- Your responses should be text-only, without any tags or identifiers.
</instructions>"

/-! ## Store operations (`DatabaseManager`) -/

/-- `get_setting` (lines 126–140): `SELECT value FROM tellama_settings
WHERE setting = ?` followed by `fetchone()` — the first matching row in
rowid order, or `None`. -/
def get_setting (db : DB) (setting : String) : Option String :=
  (db.settings.find? (fun r => r.setting = setting)).map (fun r => r.value)

/-- `set_setting` (lines 142–157): `INSERT OR REPLACE INTO tellama_settings
(setting, value) VALUES (?, ?)`. Because the table declares no UNIQUE
constraint on `setting` (its only constraint is the autoincrement primary
key, which the INSERT leaves unspecified), the OR REPLACE clause can never
fire: the statement always inserts a fresh row. -/
def set_setting (db : DB) (setting value : String) : DB :=
  { db with
    settings := db.settings ++ [⟨db.nextSettingId, setting, value⟩],
    nextSettingId := db.nextSettingId + 1 }

/-- `is_group_allowed` (lines 159–173): existence of a row with the given
`chat_id` in `allowed_groups`. -/
def is_group_allowed (db : DB) (chat_id : Int) : Bool :=
  (db.allowed_groups.find? (fun r => r.chat_id = chat_id)).isSome

/-- `is_user_allowed` (lines 175–189): existence of a row with the given
`user_id` in `allowed_users`. -/
def is_user_allowed (db : DB) (user_id : Int) : Bool :=
  (db.allowed_users.find? (fun r => r.user_id = user_id)).isSome

/-- `store_message` (lines 191–218): INSERT one row into
`conversation_history`. The UTC timestamp the Python code computes is
passed in as the `utc_time` argument. -/
def store_message (db : DB) (chat_id : Int) (chat_name : String)
    (user_id : Int) (full_name : String) (message_text : String)
    (utc_time : String) : DB :=
  { db with
    history := db.history ++
      [⟨db.nextHistoryId, utc_time, chat_id, chat_name, user_id, full_name,
        message_text⟩],
    nextHistoryId := db.nextHistoryId + 1 }

/-- One element of the list `get_conversation_history` returns: the dict
built on lines 252–261 of `database_manager.py`. -/
structure HistoryEntry where
  timestamp : String
  chat_id : Int
  chat_name : String
  user_id : Int
  full_name : String
  message : String
deriving DecidableEq

/-- The rows selected by the query in `get_conversation_history`
(lines 235–248): `WHERE chat_id = ? ORDER BY id DESC LIMIT ?`, then
`rows.reverse()`. With the table in rowid order, ORDER BY id DESC is the
reverse of the filtered list, LIMIT takes the first `limit` of that, and
the final `reverse()` restores chronological order. -/
def selectHistoryRows (db : DB) (chat_id : Int) (limit : Nat) :
    List HistoryRow :=
  ((db.history.filter (fun r => r.chat_id = chat_id)).reverse.take
    limit).reverse

/-- The dict built per row on lines 252–261; the `chat_id` field is the
query parameter, the rest come from the selected row. -/
def projectRow (chat_id : Int) (r : HistoryRow) : HistoryEntry :=
  ⟨r.timestamp, chat_id, r.chat_name, r.user_id, r.full_name, r.message⟩

/-- `get_conversation_history` (lines 220–263). -/
def get_conversation_history (db : DB) (chat_id : Int) (limit : Nat) :
    List HistoryEntry :=
  (selectHistoryRows db chat_id limit).map (projectRow chat_id)

/-- `_get_default_instructions` (lines 104–124): first row of
`chat_instructions` with `chat_id IS NULL`, else the hard-coded
`DEFAULT_INSTRUCTIONS` constant (after a warning log). -/
def get_default_instructions (db : DB) : String :=
  match db.chat_instructions.find? (fun r => r.chat_id = none) with
  | some r => r.instructions
  | none => DEFAULT_INSTRUCTIONS

/-- `fetch_instructions_for_group` (lines 265–281): first row of
`chat_instructions` with `chat_id = ?` (SQL `=` never matches NULL rows),
else `_get_default_instructions`. -/
def fetch_instructions_for_group (db : DB) (chat_id : Int) : String :=
  match db.chat_instructions.find? (fun r => r.chat_id = some chat_id) with
  | some r => r.instructions
  | none => get_default_instructions db

/-! ## Pipeline (`tellama.py`, `Tellama.handle_message`) -/

/-- Telegram chat kind; `handle_message` only distinguishes
`chat.type == Chat.PRIVATE` from everything else. -/
inductive ChatType
  | privateChat
  | groupChat
deriving DecidableEq

/-- The parts of a Telegram update `handle_message` reads: the effective
chat (id, type, optional title), the sending user (id, full name) and the
message text. Updates with a missing chat, message or user are dropped
before the pipeline proper and are not modelled; a missing text is
modelled by the empty string, which is falsy in Python exactly like
`None`. -/
structure IncomingMessage where
  chat_id : Int
  chat_type : ChatType
  chat_title : Option String
  user_id : Int
  full_name : String
  text : String
deriving DecidableEq

/-- The bot identity the pipeline consults: `application.bot.id`,
`application.bot.username`, and the name fields of `get_me()`. -/
structure BotInfo where
  id : Int
  username : String
  first_name : String
  last_name : Option String
deriving DecidableEq

/-- Lines 162–164: `" ".join(part for part in [first_name, last_name] if
part)` — keep the truthy (non-None, non-empty) parts and join with a
space. -/
def botFullName (bot : BotInfo) : String :=
  String.intercalate " "
    (([bot.first_name] ++
        (match bot.last_name with | some l => [l] | none => [])).filter
      (fun s => s ≠ ""))

/-- One element of the `messages` list sent to Ollama:
a dict with a role and a content. -/
structure RoleMsg where
  role : String
  content : String
deriving DecidableEq

/-- Lines 108–117: map one history dict to a role-tagged message — the
bot's own entries become `assistant` turns with the stored text verbatim,
everyone else becomes a `user` turn with the display name prefixed. -/
def classifyEntry (botId : Int) (hm : HistoryEntry) : RoleMsg :=
  if hm.user_id = botId then ⟨"assistant", hm.message⟩
  else ⟨"user", hm.full_name ++ ": " ++ hm.message⟩

/-- Result of post-processing the raw model output. -/
inductive PostResult
  | skip
  | reply (text : String)
deriving DecidableEq

/-- Lines 146–155: strip the raw content; if it contains `"</think>"`,
keep the last piece of the split (the text after the final occurrence
found by the greedy scan), re-stripped; if the result is exactly
`"<skip>"`, suppress the reply. -/
def postprocess (rawContent : String) : PostResult :=
  let answer := pyStrip rawContent
  let answer :=
    if pyContains answer "</think>" then
      pyStrip ((pySplit answer "</think>").getLastD "")
    else answer
  if answer = "<skip>" then .skip else .reply answer

/-- The observable outcome of one `handle_message` run: the texts passed
to `message.reply_text` in order, the final database, and the argument
lists of the Ollama `chat` calls made (the pipeline makes at most one). -/
structure RunResult where
  replies : List String
  db : DB
  inferCalls : List (List RoleMsg)
deriving DecidableEq

/-- The built-in denial text of lines 88–91. -/
def privateDisallowedDefault : String :=
  "Sorry, you do not have permission to chat with me."

/-- The built-in error text of lines 180–183. -/
def internalErrorDefault : String :=
  "An internal error occurred while processing your message."

/-- The `try:` block of lines 102–173, starting after `chat_name` and
authorization are settled. The inference backend is a parameter `infer`;
`Except.error` is the one failure the embedding lets it raise, and the
block propagates it as `Except.error` carrying the observable state at the
raise point (database with the inbound row already inserted, replies sent
so far, inference calls made so far) for the `except` handler. `now` is
the UTC timestamp `store_message` stamps. -/
def pipelineTry (db : DB) (bot : BotInfo) (msg : IncomingMessage)
    (chat_name : String) (historyLimit : Nat)
    (infer : List RoleMsg → Except Unit String) (now : String) :
    Except RunResult RunResult :=
  let history := get_conversation_history db msg.chat_id historyLimit
  let messages := history.map (classifyEntry bot.id)
  let db1 := store_message db msg.chat_id chat_name msg.user_id
    msg.full_name msg.text now
  if msg.chat_type ≠ ChatType.privateChat ∧
      ¬ pyStartsWith (pyLower msg.text) ("@" ++ pyLower bot.username) then
    .ok ⟨[], db1, []⟩
  else
    let instructions := fetch_instructions_for_group db1 msg.chat_id
    let prompt := instructions ++ "\n\n" ++ msg.full_name ++ ": " ++ msg.text
    let call := messages ++ [⟨"user", prompt⟩]
    match infer call with
    | .error _ => .error ⟨[], db1, [call]⟩
    | .ok content =>
      match postprocess content with
      | .skip => .ok ⟨[], db1, [call]⟩
      | .reply answer =>
        let db2 := store_message db1 msg.chat_id chat_name bot.id
          (botFullName bot) answer now
        .ok ⟨[answer], db2, [call]⟩

/-- The `except Exception` handler of lines 175–185: look up the
`internal_error_message` setting in the database as it stands at the raise
point, fall back to the built-in text, and send it as one more reply. -/
def handleError (r : RunResult) : RunResult :=
  { r with
    replies := r.replies ++
      [(get_setting r.db "internal_error_message").getD
          internalErrorDefault] }

/-- Lines 95–96: `chat.title if chat.title else "Unknown Chat"` — Python
truthiness, so both a missing and an empty title fall back. -/
def groupChatName (title : Option String) : String :=
  match title with
  | some t => if t ≠ "" then t else "Unknown Chat"
  | none => "Unknown Chat"

/-- `handle_message` (lines 48–185) as a function from the pre-state to
the observable outcome: validation (empty text drops, line 57),
self-filter (line 68), the private/group authorization branch
(lines 77–100) computing `chat_name`, then the `try` block with the
catch-all handler. The function is total: no failure propagates to the
caller. -/
def handle_message (db : DB) (bot : BotInfo) (msg : IncomingMessage)
    (historyLimit : Nat) (infer : List RoleMsg → Except Unit String)
    (now : String) : RunResult :=
  if msg.text = "" then ⟨[], db, []⟩
  else if msg.user_id = bot.id then ⟨[], db, []⟩
  else
    match msg.chat_type with
    | .privateChat =>
      if ¬ is_user_allowed db msg.user_id then
        ⟨[(get_setting db "private_chat_disallowed_message").getD
            privateDisallowedDefault], db, []⟩
      else
        match pipelineTry db bot msg
          ("Private Chat with " ++ msg.full_name) historyLimit infer now with
        | .ok r => r
        | .error r => handleError r
    | .groupChat =>
      if ¬ is_group_allowed db msg.chat_id then ⟨[], db, []⟩
      else
        match pipelineTry db bot msg (groupChatName msg.chat_title)
          historyLimit infer now with
        | .ok r => r
        | .error r => handleError r

/-! ## Shared lemmas and sample data -/

/-- The window the history query selects is the suffix of the chat's rows
of length at most `limit` (the most recent `limit` rows, chronological). -/
lemma selectHistoryRows_eq_drop (db : DB) (cid : Int) (limit : Nat) :
    selectHistoryRows db cid limit =
      (db.history.filter (fun r => r.chat_id = cid)).drop
        ((db.history.filter (fun r => r.chat_id = cid)).length - limit) := by
  unfold selectHistoryRows
  rw [List.take_reverse, List.reverse_reverse]

/-- The selected window is a sublist of the full table. -/
lemma selectHistoryRows_sublist (db : DB) (cid : Int) (limit : Nat) :
    (selectHistoryRows db cid limit).Sublist db.history := by
  rw [selectHistoryRows_eq_drop]
  exact ((List.drop_sublist _ _).trans (List.filter_sublist _))

/-- An empty database (the state right after `_create_tables` on a fresh
file; SQLite AUTOINCREMENT starts at 1). -/
def emptyDB : DB := ⟨[], [], [], [], [], 1, 1⟩

/-! ## Claims -/

/-- C1: the claim asserts `setSetting` is an upsert on the unique key
`name` so that after `setSetting(n, v1); setSetting(n, v2)` the store
holds one row for `n` and `getSetting(n)` returns `v2`. The code violates
this: `tellama_settings` declares no UNIQUE constraint on `setting`, so
`INSERT OR REPLACE` always inserts, leaving two rows for `n`, and
`getSetting` (an unordered scan read with `fetchone`) returns the first
inserted value `v1`. This theorem evaluates the model at the failing
input. -/
theorem C1_set_setting_not_upsert :
    get_setting (set_setting (set_setting emptyDB "k" "v1") "k" "v2") "k" =
        some "v1" ∧
      ((set_setting (set_setting emptyDB "k" "v1") "k" "v2").settings.filter
            (fun r => r.setting = "k")).length = 2 := by
  decide

/-- C2: `postprocess` trims, then keeps the re-trimmed remainder after the
reasoning-close tag when present, then maps an exact `"<skip>"` to the
Skip signal; on the three specified inputs it yields `"hello"`, Skip, and
`"plain"`; and in a full pipeline run whose model output post-processes to
Skip, no reply is sent and no outbound history entry is written (only the
inbound row is added). -/
theorem C2_postprocess_rules :
    postprocess "abc</think>  hello " = .reply "hello" ∧
    postprocess "<skip>" = .skip ∧
    postprocess "  plain " = .reply "plain" ∧
    (let r := handle_message ⟨[], [], [], [⟨1, 42, "alice"⟩], [], 1, 1⟩
      ⟨7, "tellama", "Tellama", none⟩
      ⟨100, .privateChat, none, 42, "Alice", "hi"⟩ 1000
      (fun _ => .ok " x</think> <skip> ") "2024-01-01T00:00:00+00:00"
     r.replies = [] ∧ r.db.history.length = 1) := by
  refine ⟨by decide, by decide, by decide, by decide⟩

/-- C10: when the raw output contains `"</think>"` more than once,
post-processing keeps only the trimmed text after the last occurrence: on
`"a</think>b</think>c"` it yields `"c"`, not the text `"b</think>c"` that
follows the first occurrence; and the re-trim and skip check apply to that
final remainder. -/
theorem C10_think_strip_keeps_last :
    postprocess "a</think>b</think>c" = .reply "c" ∧
    postprocess "a</think>b</think>c" ≠ .reply "b</think>c" ∧
    postprocess " x</think>first</think>  <skip> " = .skip := by
  refine ⟨by decide, by decide, by decide⟩

/-- C6: for every chat and positive limit, on a database whose history
table has strictly increasing rowids (every reachable database does),
`get_conversation_history` selects rows of that chat only, in increasing
insertion order, never more than `limit` of them nor more than the chat
has, and the selected window is exactly the most recent `limit` rows (the
oldest excess rows are dropped). -/
theorem C6_get_history_window (db : DB) (cid : Int) (limit : Nat)
    (_hpos : 0 < limit)
    (hWF : db.history.Pairwise (fun a b => a.id < b.id)) :
    (selectHistoryRows db cid limit).Pairwise (fun a b => a.id < b.id) ∧
    (∀ r ∈ selectHistoryRows db cid limit, r.chat_id = cid) ∧
    (get_conversation_history db cid limit).length ≤ limit ∧
    (get_conversation_history db cid limit).length ≤
      (db.history.filter (fun r => r.chat_id = cid)).length ∧
    selectHistoryRows db cid limit =
      (db.history.filter (fun r => r.chat_id = cid)).drop
        ((db.history.filter (fun r => r.chat_id = cid)).length - limit) := by
  refine ⟨hWF.sublist (selectHistoryRows_sublist db cid limit), ?_, ?_, ?_,
    selectHistoryRows_eq_drop db cid limit⟩
  · intro r hr
    rw [selectHistoryRows_eq_drop] at hr
    have hmem := (List.drop_sublist _ _).mem hr
    simpa using (List.mem_filter.mp hmem).2
  · rw [get_conversation_history, List.length_map]
    unfold selectHistoryRows
    rw [List.length_reverse, List.length_take]
    exact inf_le_left
  · rw [get_conversation_history, List.length_map, selectHistoryRows_eq_drop]
    exact List.Sublist.length_le (List.drop_sublist _ _)

/-- A sample database for exercising the C6 window: chat 5 has three
history rows, chat 6 one. -/
def c6db : DB :=
  ⟨[], [⟨1, "t1", 5, "g", 10, "A", "m1"⟩, ⟨2, "t2", 6, "h", 11, "B", "m2"⟩,
      ⟨3, "t3", 5, "g", 10, "A", "m3"⟩, ⟨4, "t4", 5, "g", 12, "C", "m4"⟩],
    [], [], [], 1, 5⟩

/-- Witness for C6: the window of size 2 over chat 5 of `c6db`. -/
theorem C6_get_history_window_witness :
    (selectHistoryRows c6db 5 2).Pairwise (fun a b => a.id < b.id) ∧
    (∀ r ∈ selectHistoryRows c6db 5 2, r.chat_id = 5) ∧
    (get_conversation_history c6db 5 2).length ≤ 2 ∧
    (get_conversation_history c6db 5 2).length ≤
      (c6db.history.filter (fun r => r.chat_id = 5)).length ∧
    selectHistoryRows c6db 5 2 =
      (c6db.history.filter (fun r => r.chat_id = 5)).drop
        ((c6db.history.filter (fun r => r.chat_id = 5)).length - 2) :=
  C6_get_history_window c6db 5 2 (by decide) (by decide)

/-- C8: `fetch_instructions_for_group` resolves through exactly three
tiers and is total (it never fails): the first `chat_instructions` row
keyed by the chat if one exists, else the first row with a NULL `chat_id`
if one exists, else the hard-coded `DEFAULT_INSTRUCTIONS` constant. -/
theorem C8_instructions_three_tiers (db : DB) (cid : Int) :
    (∀ r, db.chat_instructions.find? (fun q => q.chat_id = some cid) =
        some r → fetch_instructions_for_group db cid = r.instructions) ∧
    (db.chat_instructions.find? (fun q => q.chat_id = some cid) = none →
      ∀ r, db.chat_instructions.find? (fun q => q.chat_id = none) = some r →
        fetch_instructions_for_group db cid = r.instructions) ∧
    (db.chat_instructions.find? (fun q => q.chat_id = some cid) = none →
      db.chat_instructions.find? (fun q => q.chat_id = none) = none →
        fetch_instructions_for_group db cid = DEFAULT_INSTRUCTIONS) := by
  unfold fetch_instructions_for_group get_default_instructions
  refine ⟨fun r h => by rw [h], fun h r h2 => by rw [h, h2], fun h h2 => by
    rw [h, h2]⟩

/-- A sample database for the instruction tiers: a chat-specific row for
chat 5 and a global default row. -/
def c8db : DB :=
  ⟨[], [], [], [], [⟨1, some 5, "five"⟩, ⟨2, none, "default"⟩], 1, 1⟩

/-- Witness for C8: chat 5 resolves to its chat-specific row in `c8db`. -/
theorem C8_instructions_three_tiers_witness :
    fetch_instructions_for_group c8db 5 = "five" :=
  (C8_instructions_three_tiers c8db 5).1 ⟨1, some 5, "five"⟩ (by decide)

/-- One message to append for the round-trip claim: the caller-supplied
`store_message` arguments that vary per message (sender, name, text) plus
the UTC timestamp stamped at call time. -/
structure SentMsg where
  user_id : Int
  full_name : String
  text : String
  ts : String
deriving DecidableEq

/-- Appending a batch of messages for one chat is the left-to-right
iteration of `store_message`. -/
def appendMessages (db : DB) (cid : Int) (cname : String)
    (msgs : List SentMsg) : DB :=
  msgs.foldl
    (fun d m => store_message d cid cname m.user_id m.full_name m.text m.ts)
    db

/-- The history row `store_message` inserts for one appended message,
given the rowid counter at insertion time. -/
def sentRow (cid : Int) (cname : String) (n : Nat) (m : SentMsg) :
    HistoryRow :=
  ⟨n, m.ts, cid, cname, m.user_id, m.full_name, m.text⟩

/-- The block of history rows a batch of appends inserts, with rowids
counting up from `n`. -/
def sentRows (cid : Int) (cname : String) : Nat → List SentMsg →
    List HistoryRow
  | _, [] => []
  | n, m :: ms => sentRow cid cname n m :: sentRows cid cname (n + 1) ms

/-- Appending a batch extends the history table by exactly the
corresponding block of rows. -/
lemma appendMessages_history (cid : Int) (cname : String) :
    ∀ (msgs : List SentMsg) (db : DB),
      (appendMessages db cid cname msgs).history =
        db.history ++ sentRows cid cname db.nextHistoryId msgs
  | [], db => by simp [appendMessages, sentRows]
  | m :: ms, db => by
    have ih := appendMessages_history cid cname ms
      (store_message db cid cname m.user_id m.full_name m.text m.ts)
    simp only [appendMessages, List.foldl_cons] at ih ⊢
    rw [ih]
    simp [store_message, sentRows, sentRow]

/-- Every row of an appended block belongs to the chat it was appended
for, so the history filter keeps the whole block. -/
lemma filter_sentRows (cid : Int) (cname : String) :
    ∀ (n : Nat) (msgs : List SentMsg),
      (sentRows cid cname n msgs).filter (fun r => r.chat_id = cid) =
        sentRows cid cname n msgs
  | _, [] => rfl
  | n, m :: ms => by
    simp [sentRows, List.filter_cons, sentRow, filter_sentRows cid cname
      (n + 1) ms]

/-- The appended block has one row per appended message. -/
lemma length_sentRows (cid : Int) (cname : String) :
    ∀ (n : Nat) (msgs : List SentMsg),
      (sentRows cid cname n msgs).length = msgs.length
  | _, [] => rfl
  | n, _ :: ms => by
    simp [sentRows, length_sentRows cid cname (n + 1) ms]

/-- Projecting an appended block back out of the store reproduces the
appended messages field by field. -/
lemma map_projectRow_sentRows (cid : Int) (cname : String) :
    ∀ (n : Nat) (msgs : List SentMsg),
      (sentRows cid cname n msgs).map (projectRow cid) =
        msgs.map (fun m => ⟨m.ts, cid, cname, m.user_id, m.full_name,
          m.text⟩)
  | _, [] => rfl
  | n, m :: ms => by
    simp [sentRows, sentRow, projectRow,
      map_projectRow_sentRows cid cname (n + 1) ms]

/-- C7: starting from a store with no history for the chat, appending N
messages and then reading the history back with `limit ≥ N` returns
exactly those N entries, in send order, with chat id, chat name, user id,
full name and message preserved verbatim (and the timestamp stamped at
append time). -/
theorem C7_history_roundtrip (db : DB) (cid : Int) (cname : String)
    (msgs : List SentMsg) (limit : Nat)
    (hempty : db.history.filter (fun r => r.chat_id = cid) = [])
    (hlim : msgs.length ≤ limit) :
    get_conversation_history (appendMessages db cid cname msgs) cid limit =
      msgs.map (fun m =>
        ⟨m.ts, cid, cname, m.user_id, m.full_name, m.text⟩) := by
  unfold get_conversation_history selectHistoryRows
  rw [appendMessages_history, List.filter_append, hempty, List.nil_append,
    filter_sentRows]
  rw [List.take_of_length_le
    (by rw [List.length_reverse, length_sentRows]; exact hlim)]
  rw [List.reverse_reverse, map_projectRow_sentRows]

/-- Witness for C7: two messages appended to chat 9 of the empty store
come back verbatim with limit 5. -/
theorem C7_history_roundtrip_witness :
    get_conversation_history
        (appendMessages emptyDB 9 "room"
          [⟨10, "Ada", "hi", "t1"⟩, ⟨11, "Bob", "yo", "t2"⟩]) 9 5 =
      [⟨"t1", 9, "room", 10, "Ada", "hi"⟩,
        ⟨"t2", 9, "room", 11, "Bob", "yo"⟩] :=
  C7_history_roundtrip emptyDB 9 "room"
    [⟨10, "Ada", "hi", "t1"⟩, ⟨11, "Bob", "yo", "t2"⟩] 5 (by decide)
    (by decide)

/-- The history row the pipeline inserts for the inbound message. -/
def inboundRow (db : DB) (msg : IncomingMessage) (chat_name now : String) :
    HistoryRow :=
  ⟨db.nextHistoryId, now, msg.chat_id, chat_name, msg.user_id,
    msg.full_name, msg.text⟩

/-- Reading a setting is unaffected by inserting a history row. -/
lemma get_setting_store_message (db : DB) (cid : Int) (cn : String)
    (uid : Int) (fn mt t s : String) :
    get_setting (store_message db cid cn uid fn mt t) s = get_setting db s :=
  rfl

/-- Resolving instructions is unaffected by inserting a history row. -/
lemma fetch_instructions_store_message (db : DB) (cid : Int) (cn : String)
    (uid : Int) (fn mt t : String) (cid2 : Int) :
    fetch_instructions_for_group (store_message db cid cn uid fn mt t)
      cid2 = fetch_instructions_for_group db cid2 :=
  rfl

/-- Once the pipeline enters the `try` block, whatever happens afterwards
(mention-gate drop, inference failure, skip, or a relayed reply), the
database it leaves behind starts with the pre-state history followed by
the inbound row: the inbound message is persisted and never removed. -/
lemma pipeline_run_history (db : DB) (bot : BotInfo)
    (msg : IncomingMessage) (cname : String) (limit : Nat)
    (infer : List RoleMsg → Except Unit String) (now : String) :
    ∃ tail,
      (match pipelineTry db bot msg cname limit infer now with
        | .ok r => r
        | .error r => handleError r).db.history =
        (db.history ++ [inboundRow db msg cname now]) ++ tail := by
  simp only [pipelineTry]
  by_cases hgate : msg.chat_type ≠ ChatType.privateChat ∧
      ¬ pyStartsWith (pyLower msg.text) ("@" ++ pyLower bot.username)
  · simp only [if_pos hgate]
    exact ⟨[], by simp [store_message, inboundRow]⟩
  · simp only [if_neg hgate]
    cases hinf : infer _ with
    | error e => exact ⟨[], by simp [handleError, store_message, inboundRow]⟩
    | ok content =>
      cases hp : postprocess content with
      | skip => exact ⟨[], by simp [hp, store_message, inboundRow]⟩
      | reply answer =>
        refine ⟨[⟨db.nextHistoryId + 1, now, msg.chat_id, cname, bot.id,
          botFullName bot, answer⟩], ?_⟩
        simp [hp, store_message, inboundRow]

/-- C3: authorization is asymmetric and runs before any history write.
In a private chat the pipeline proceeds iff the sender is in
`allowed_users`; on denial it sends exactly one reply — the
`private_chat_disallowed_message` setting, or the built-in denial text
when that setting is absent — touches no history and never calls
inference, while when allowed it proceeds and persists the inbound row.
In a group chat the pipeline proceeds iff the chat is in
`allowed_groups`; on denial it ends silently (no reply, no history write,
no inference call). -/
theorem C3_authorization_asymmetric (db : DB) (bot : BotInfo)
    (msg : IncomingMessage) (historyLimit : Nat)
    (infer : List RoleMsg → Except Unit String) (now : String)
    (htext : msg.text ≠ "") (hself : msg.user_id ≠ bot.id) :
    (msg.chat_type = ChatType.privateChat →
      is_user_allowed db msg.user_id = false →
      handle_message db bot msg historyLimit infer now =
        ⟨[(get_setting db "private_chat_disallowed_message").getD
            privateDisallowedDefault], db, []⟩) ∧
    (msg.chat_type = ChatType.privateChat →
      is_user_allowed db msg.user_id = true →
      db.history ++
          [inboundRow db msg ("Private Chat with " ++ msg.full_name) now]
        <+: (handle_message db bot msg historyLimit infer now).db.history) ∧
    (msg.chat_type = ChatType.groupChat →
      is_group_allowed db msg.chat_id = false →
      handle_message db bot msg historyLimit infer now = ⟨[], db, []⟩) ∧
    (msg.chat_type = ChatType.groupChat →
      is_group_allowed db msg.chat_id = true →
      db.history ++ [inboundRow db msg (groupChatName msg.chat_title) now]
        <+: (handle_message db bot msg historyLimit infer now).db.history) := by
  refine ⟨fun hpriv hu => ?_, fun hpriv hu => ?_, fun hgrp hg => ?_,
    fun hgrp hg => ?_⟩
  · simp [handle_message, htext, hself, hpriv, hu]
  · obtain ⟨tail, htail⟩ := pipeline_run_history db bot msg
      ("Private Chat with " ++ msg.full_name) historyLimit infer now
    simp only [handle_message, if_neg htext, if_neg hself, hpriv, hu,
      Bool.not_true, not_true, if_false, not_false_eq_true, if_true]
    exact ⟨tail, htail.symm⟩
  · simp [handle_message, htext, hself, hgrp, hg]
  · obtain ⟨tail, htail⟩ := pipeline_run_history db bot msg
      (groupChatName msg.chat_title) historyLimit infer now
    simp only [handle_message, if_neg htext, if_neg hself, hgrp, hg,
      Bool.not_true, not_true, if_false, not_false_eq_true, if_true]
    exact ⟨tail, htail.symm⟩

/-- A user row so that user 42 is allowed in private chats. -/
def c3db : DB := ⟨[], [], [], [⟨1, 42, "alice"⟩], [], 1, 1⟩

/-- A bot identity used by the concrete pipeline runs. -/
def sampleBot : BotInfo := ⟨7, "tellama", "Tellama", none⟩

/-- An inference backend stub that always answers `"ok"`. -/
def okInfer : List RoleMsg → Except Unit String := fun _ => .ok "ok"

/-- An inference backend stub that always raises. -/
def failInfer : List RoleMsg → Except Unit String := fun _ => .error ()

/-- Witness for C3: an unauthorized private sender (user 43) gets exactly
the built-in denial reply and the database is untouched. -/
theorem C3_authorization_asymmetric_witness :
    handle_message c3db sampleBot ⟨100, .privateChat, none, 43, "Mallory",
        "hi"⟩ 1000 okInfer "t0" =
      ⟨[(get_setting c3db "private_chat_disallowed_message").getD
          privateDisallowedDefault], c3db, []⟩ :=
  (C3_authorization_asymmetric c3db sampleBot
    ⟨100, .privateChat, none, 43, "Mallory", "hi"⟩ 1000 okInfer "t0"
    (by decide) (by decide)).1 rfl (by decide)

/-- The one argument list the pipeline passes to the inference backend:
the prior turns of the chat as read from the PRE-state store (so the
message being processed, stored only afterwards, is not among them), each
classified by sender identity, followed by the current message as the
final user turn, prefixed by the resolved instructions. -/
def assembledCall (db : DB) (bot : BotInfo) (msg : IncomingMessage)
    (limit : Nat) : List RoleMsg :=
  (get_conversation_history db msg.chat_id limit).map
      (classifyEntry bot.id) ++
    [⟨"user", fetch_instructions_for_group db msg.chat_id ++ "\n\n" ++
        msg.full_name ++ ": " ++ msg.text⟩]

/-- When the mention gate does not fire, the `try` block calls the
inference backend exactly once, with the assembled context, whatever the
call's outcome. -/
lemma pipeline_run_inferCalls (db : DB) (bot : BotInfo)
    (msg : IncomingMessage) (cname : String) (limit : Nat)
    (infer : List RoleMsg → Except Unit String) (now : String)
    (h : ¬ (msg.chat_type ≠ ChatType.privateChat ∧
      ¬ pyStartsWith (pyLower msg.text) ("@" ++ pyLower bot.username))) :
    (match pipelineTry db bot msg cname limit infer now with
      | .ok r => r
      | .error r => handleError r).inferCalls =
      [assembledCall db bot msg limit] := by
  simp only [pipelineTry, if_neg h]
  cases hinf : infer _ with
  | error e => simp [handleError, assembledCall,
      fetch_instructions_store_message]
  | ok content =>
    cases hp : postprocess content with
    | skip => simp [hp, assembledCall, fetch_instructions_store_message]
    | reply answer => simp [hp, assembledCall,
        fetch_instructions_store_message]

/-- In a non-private chat whose text does not start with the bot mention,
the `try` block stores the inbound row and ends: no reply, no inference
call. -/
lemma pipeline_run_gate_drop (db : DB) (bot : BotInfo)
    (msg : IncomingMessage) (cname : String) (limit : Nat)
    (infer : List RoleMsg → Except Unit String) (now : String)
    (hgrp : msg.chat_type = ChatType.groupChat)
    (hmention : pyStartsWith (pyLower msg.text)
      ("@" ++ pyLower bot.username) = false) :
    (match pipelineTry db bot msg cname limit infer now with
      | .ok r => r
      | .error r => handleError r) =
      ⟨[], store_message db msg.chat_id cname msg.user_id msg.full_name
        msg.text now, []⟩ := by
  simp [pipelineTry, hgrp, hmention]

/-- When every inference call raises, the `try` block stores the inbound
row, propagates the exception, and the handler turns it into the
configured (or built-in) internal-error reply; no outbound row is
written. -/
lemma pipeline_run_infer_error (db : DB) (bot : BotInfo)
    (msg : IncomingMessage) (cname : String) (limit : Nat)
    (infer : List RoleMsg → Except Unit String) (now : String)
    (h : ¬ (msg.chat_type ≠ ChatType.privateChat ∧
      ¬ pyStartsWith (pyLower msg.text) ("@" ++ pyLower bot.username)))
    (hfail : ∀ call, infer call = .error ()) :
    (match pipelineTry db bot msg cname limit infer now with
      | .ok r => r
      | .error r => handleError r) =
      ⟨[(get_setting db "internal_error_message").getD
          internalErrorDefault],
        store_message db msg.chat_id cname msg.user_id msg.full_name
          msg.text now,
        [assembledCall db bot msg limit]⟩ := by
  simp only [pipelineTry, if_neg h, hfail]
  simp [handleError, get_setting_store_message, assembledCall,
    fetch_instructions_store_message]

/-- C4: in an authorized group chat, a message whose lowercased text does
not start with `"@"` followed by the lowercased bot handle is persisted as
an inbound history entry and the pipeline then ends — no inference call,
no reply; in a private chat the gate is skipped and every authorized
message reaches the inference call. -/
theorem C4_mention_gate (db : DB) (bot : BotInfo) (msg : IncomingMessage)
    (historyLimit : Nat) (infer : List RoleMsg → Except Unit String)
    (now : String) (htext : msg.text ≠ "")
    (hself : msg.user_id ≠ bot.id) :
    (msg.chat_type = ChatType.groupChat →
      is_group_allowed db msg.chat_id = true →
      pyStartsWith (pyLower msg.text) ("@" ++ pyLower bot.username) =
        false →
      handle_message db bot msg historyLimit infer now =
        ⟨[], store_message db msg.chat_id (groupChatName msg.chat_title)
          msg.user_id msg.full_name msg.text now, []⟩) ∧
    (msg.chat_type = ChatType.privateChat →
      is_user_allowed db msg.user_id = true →
      (handle_message db bot msg historyLimit infer now).inferCalls.length
        = 1) := by
  constructor
  · intro hgrp hg hmention
    simp only [handle_message, if_neg htext, if_neg hself, hgrp, hg,
      Bool.not_true, not_true, if_false, not_false_eq_true, if_true]
    exact pipeline_run_gate_drop db bot msg (groupChatName msg.chat_title)
      historyLimit infer now hgrp hmention
  · intro hpriv hu
    simp only [handle_message, if_neg htext, if_neg hself, hpriv, hu,
      Bool.not_true, not_true, if_false, not_false_eq_true, if_true]
    rw [pipeline_run_inferCalls db bot msg
      ("Private Chat with " ++ msg.full_name) historyLimit infer now
      (by simp [hpriv])]
    rfl

/-- A group row so that chat 100 is allowed. -/
def c4db : DB := ⟨[], [], [⟨1, 100, "grp"⟩], [], [], 1, 1⟩

/-- Witness for C4: an authorized group message that does not mention the
bot is stored and silently dropped. -/
theorem C4_mention_gate_witness :
    handle_message c4db sampleBot
        ⟨100, .groupChat, some "grp", 42, "Alice", "hello"⟩ 1000 okInfer
        "t0" =
      ⟨[], store_message c4db 100 (groupChatName (some "grp")) 42 "Alice"
        "hello" "t0", []⟩ :=
  (C4_mention_gate c4db sampleBot
    ⟨100, .groupChat, some "grp", 42, "Alice", "hello"⟩ 1000 okInfer "t0"
    (by decide) (by decide)).1 rfl (by decide) (by decide)

/-- C5: when the inference call raises, the exception is caught at the
pipeline boundary and converted into a single error reply — the
`internal_error_message` setting, or the built-in text when absent — the
inbound history entry written before the call stays persisted, no
outbound entry is written, and nothing propagates to the caller (the
pipeline is a total function). Stated for both chat kinds that reach the
inference call. -/
theorem C5_inference_failure_error_reply (db : DB) (bot : BotInfo)
    (msg : IncomingMessage) (historyLimit : Nat)
    (infer : List RoleMsg → Except Unit String) (now : String)
    (htext : msg.text ≠ "") (hself : msg.user_id ≠ bot.id)
    (hfail : ∀ call, infer call = .error ()) :
    (msg.chat_type = ChatType.privateChat →
      is_user_allowed db msg.user_id = true →
      handle_message db bot msg historyLimit infer now =
        ⟨[(get_setting db "internal_error_message").getD
            internalErrorDefault],
          store_message db msg.chat_id
            ("Private Chat with " ++ msg.full_name) msg.user_id
            msg.full_name msg.text now,
          [assembledCall db bot msg historyLimit]⟩) ∧
    (msg.chat_type = ChatType.groupChat →
      is_group_allowed db msg.chat_id = true →
      pyStartsWith (pyLower msg.text) ("@" ++ pyLower bot.username) =
        true →
      handle_message db bot msg historyLimit infer now =
        ⟨[(get_setting db "internal_error_message").getD
            internalErrorDefault],
          store_message db msg.chat_id (groupChatName msg.chat_title)
            msg.user_id msg.full_name msg.text now,
          [assembledCall db bot msg historyLimit]⟩) := by
  constructor
  · intro hpriv hu
    simp only [handle_message, if_neg htext, if_neg hself, hpriv, hu,
      Bool.not_true, not_true, if_false, not_false_eq_true, if_true]
    exact pipeline_run_infer_error db bot msg
      ("Private Chat with " ++ msg.full_name) historyLimit infer now
      (by simp [hpriv]) hfail
  · intro hgrp hg hmention
    simp only [handle_message, if_neg htext, if_neg hself, hgrp, hg,
      Bool.not_true, not_true, if_false, not_false_eq_true, if_true]
    exact pipeline_run_infer_error db bot msg
      (groupChatName msg.chat_title) historyLimit infer now
      (by simp [hmention]) hfail

/-- Witness for C5: a failing backend in an authorized private chat
produces the built-in error reply and only the inbound row. -/
theorem C5_inference_failure_error_reply_witness :
    handle_message c3db sampleBot
        ⟨100, .privateChat, none, 42, "Alice", "hi"⟩ 1000 failInfer "t0" =
      ⟨[(get_setting c3db "internal_error_message").getD
          internalErrorDefault],
        store_message c3db 100 ("Private Chat with " ++ "Alice") 42
          "Alice" "hi" "t0",
        [assembledCall c3db sampleBot
          ⟨100, .privateChat, none, 42, "Alice", "hi"⟩ 1000]⟩ :=
  (C5_inference_failure_error_reply c3db sampleBot
    ⟨100, .privateChat, none, 42, "Alice", "hi"⟩ 1000 failInfer "t0"
    (by decide) (by decide) (fun _ => rfl)).1 rfl (by decide)

/-- C9: whenever the pipeline reaches the inference call, it passes
exactly the pre-state history of the chat (which excludes the message
being processed — that message is stored only after the fetch), each
entry classified by sender identity and in the fetched (chronological)
order, followed by the current message as the final user turn; entries
from the bot itself become verbatim assistant turns, all others user
turns with the display name prefixed. -/
theorem C9_context_assembly (db : DB) (bot : BotInfo)
    (msg : IncomingMessage) (historyLimit : Nat)
    (infer : List RoleMsg → Except Unit String) (now : String)
    (htext : msg.text ≠ "") (hself : msg.user_id ≠ bot.id) :
    (msg.chat_type = ChatType.privateChat →
      is_user_allowed db msg.user_id = true →
      (handle_message db bot msg historyLimit infer now).inferCalls =
        [assembledCall db bot msg historyLimit]) ∧
    (msg.chat_type = ChatType.groupChat →
      is_group_allowed db msg.chat_id = true →
      pyStartsWith (pyLower msg.text) ("@" ++ pyLower bot.username) =
        true →
      (handle_message db bot msg historyLimit infer now).inferCalls =
        [assembledCall db bot msg historyLimit]) ∧
    (∀ hm : HistoryEntry, hm.user_id = bot.id →
      classifyEntry bot.id hm = ⟨"assistant", hm.message⟩) ∧
    (∀ hm : HistoryEntry, hm.user_id ≠ bot.id →
      classifyEntry bot.id hm = ⟨"user",
        hm.full_name ++ ": " ++ hm.message⟩) := by
  refine ⟨fun hpriv hu => ?_, fun hgrp hg hmention => ?_,
    fun hm h => by simp [classifyEntry, h],
    fun hm h => by simp [classifyEntry, h]⟩
  · simp only [handle_message, if_neg htext, if_neg hself, hpriv, hu,
      Bool.not_true, not_true, if_false, not_false_eq_true, if_true]
    exact pipeline_run_inferCalls db bot msg
      ("Private Chat with " ++ msg.full_name) historyLimit infer now
      (by simp [hpriv])
  · simp only [handle_message, if_neg htext, if_neg hself, hgrp, hg,
      Bool.not_true, not_true, if_false, not_false_eq_true, if_true]
    exact pipeline_run_inferCalls db bot msg (groupChatName msg.chat_title)
      historyLimit infer now (by simp [hmention])

/-- Witness for C9: an authorized private-chat run makes exactly the
assembled inference call. -/
theorem C9_context_assembly_witness :
    (handle_message c3db sampleBot
        ⟨100, .privateChat, none, 42, "Alice", "hi"⟩ 1000 okInfer
        "t0").inferCalls =
      [assembledCall c3db sampleBot
        ⟨100, .privateChat, none, 42, "Alice", "hi"⟩ 1000] :=
  (C9_context_assembly c3db sampleBot
    ⟨100, .privateChat, none, 42, "Alice", "hi"⟩ 1000 okInfer "t0"
    (by decide) (by decide)).1 rfl (by decide)

end Tellama
